import Mathlib

/-!
Verification of the item-dispatch matching engine and location-resolution
pipeline of the topn-db service (`api/services/item_service.py`).

Python strings are modelled as `List Char`; Python `None`-able values as
`Option`; datetimes as `Int` minutes since the epoch 2025-01-01T00:00:00
(so 2025-01-01T12:00:00 is 720); the relational store as explicit record
lists with an id counter, threaded through each operation.
-/

namespace TopnDb

/-- Python `str`, modelled as its list of characters. -/
abbrev PyStr := List Char

/-- Characters removed by Python `str.strip()` (the ASCII whitespace set). -/
def isPySpace (c : Char) : Bool :=
  c = ' ' || c = '\t' || c = '\n' || c = '\r' || c = '\x0b' || c = '\x0c'

/-- Python `s.strip()`: drop leading and trailing whitespace. -/
def pyStrip (s : PyStr) : PyStr :=
  ((s.dropWhile isPySpace).reverse.dropWhile isPySpace).reverse

/-- Python `str.lower()` on a single character, restricted to the ASCII
range plus the Polish letters that occur in this development; all other
characters are fixed points (faithful for every string this service
lowercases, since `.lower()` is only ever applied after `unidecode`,
whose output is ASCII, or compared on such characters). -/
def pyLowerTable : List (Char × Char) :=
  [('Ó', 'ó'), ('Ś', 'ś'), ('Ż', 'ż'), ('Ź', 'ź'), ('Ł', 'ł'),
   ('Ą', 'ą'), ('Ę', 'ę'), ('Ć', 'ć'), ('Ń', 'ń')]

def pyLowerChar (c : Char) : Char :=
  if 65 ≤ c.toNat ∧ c.toNat ≤ 90 then Char.ofNat (c.toNat + 32)
  else
    match pyLowerTable.find? (fun q => q.1 == c) with
    | some q => q.2
    | none => c

/-- Python `s.lower()`. -/
def pyLower (s : PyStr) : PyStr := s.map pyLowerChar

/-- `unidecode` on a single character: codepoints below 128 map to
themselves, the Polish diacritics occurring in this domain map to their
ASCII transliterations, and any other codepoint maps to the empty string
(unidecode's behaviour for codepoints without a table entry). The table
is restricted to the characters exercised here; the two properties the
proofs rely on — identity on ASCII and ASCII-only output — hold of the
real library for every character. -/
def uniTable : List (Char × Char) :=
  [('ó', 'o'), ('Ó', 'O'), ('ś', 's'), ('Ś', 'S'), ('ż', 'z'), ('Ż', 'Z'),
   ('ź', 'z'), ('Ź', 'Z'), ('ł', 'l'), ('Ł', 'L'), ('ą', 'a'), ('Ą', 'A'),
   ('ę', 'e'), ('Ę', 'E'), ('ć', 'c'), ('Ć', 'C'), ('ń', 'n'), ('Ń', 'N')]

def uniChar (c : Char) : PyStr :=
  if c.toNat < 128 then [c]
  else
    match uniTable.find? (fun q => q.1 == c) with
    | some q => [q.2]
    | none => []

/-- `unidecode(s)`: transliterate to ASCII, character by character. -/
def unidecode (s : PyStr) : PyStr := s.flatMap uniChar

/-- `ItemService._normalize_name`: `unidecode(name).lower().strip()`. -/
def _normalize_name (name : PyStr) : PyStr :=
  pyStrip (pyLower (unidecode name))

/-- Python `s.split(",")`: split on every comma, keeping empty segments;
always returns at least one segment. -/
def splitComma : PyStr → List PyStr
  | [] => [[]]
  | c :: rest =>
    if c = ',' then [] :: splitComma rest
    else
      match splitComma rest with
      | [] => [[c]]
      | p :: ps => (c :: p) :: ps

/-- The literal `"Unknown"`. -/
def unknownName : PyStr := "Unknown".data

/-- `ItemService._parse_location`: parse `"City, District"` or `"City"`,
with `("Unknown", "Unknown")` for `None`/empty/whitespace-only input.
The Python `try`/`except` body performs only total operations, so the
`except` branch is dead; the unreachable `else` of the length analysis is
kept as the `[]` case. -/
def _parse_location : Option PyStr → PyStr × PyStr
  | none => (unknownName, unknownName)
  | some location =>
    if location = [] ∨ pyStrip location = [] then (unknownName, unknownName)
    else
      match (splitComma location).map pyStrip with
      | city_name :: district_name :: _ => (city_name, district_name)
      | [city_name] => (city_name, unknownName)
      | [] => (unknownName, unknownName)

/-- Worker for `pyReplace`, structurally recursive on a fuel bound; every
step consumes at least one character, so fuel `s.length` is exact. -/
def pyReplaceAux (pat rep : PyStr) : Nat → PyStr → PyStr
  | 0, s => s
  | _ + 1, [] => []
  | fuel + 1, c :: rest =>
    if pat ≠ [] ∧ pat.isPrefixOf (c :: rest) then
      rep ++ pyReplaceAux pat rep fuel ((c :: rest).drop pat.length)
    else
      c :: pyReplaceAux pat rep fuel rest

/-- Python `s.replace(pat, rep)` with a non-empty pattern: replace every
non-overlapping occurrence, scanning left to right. -/
def pyReplace (pat rep : PyStr) (s : PyStr) : PyStr :=
  pyReplaceAux pat rep s.length s

/-- The title-case noise suffix `" - Odświeżono"`. -/
def odswiezonoCap : PyStr := " - Odświeżono".data

/-- The lower-case noise suffix `" - odświeżono"`. -/
def odswiezonoLow : PyStr := " - odświeżono".data

/-- The location-cleaning step of `ItemService.create_item`: when the raw
location is truthy, remove the two literal noise suffixes and strip. -/
def clean_location_of (location : Option PyStr) : Option PyStr :=
  match location with
  | none => none
  | some l =>
    if l = [] then some l
    else some (pyStrip (pyReplace odswiezonoLow [] (pyReplace odswiezonoCap [] l)))

/-- Python `needle in haystack` on strings (substring containment). -/
def pyInStr (needle haystack : PyStr) : Bool :=
  haystack.tails.any fun t => needle.isPrefixOf t

/-- `core.database.City` row. `name_normalized` is unique store-wide. -/
structure City where
  id : Nat
  name_raw : PyStr
  name_normalized : PyStr
deriving DecidableEq, Repr

/-- `core.database.District` row. `(city_id, name_normalized)` is unique. -/
structure District where
  id : Nat
  city_id : Nat
  name_raw : PyStr
  name_normalized : PyStr
deriving DecidableEq, Repr

/-- `core.database.ItemRecord` row; datetimes are `Int` minutes. -/
structure ItemRecord where
  id : Nat
  item_url : PyStr
  source_url : PyStr
  title : Option PyStr
  price : Option PyStr
  location : Option PyStr
  created_at : Option Int
  created_at_pretty : Option PyStr
  image_url : Option PyStr
  description : Option PyStr
  source : Option PyStr
  first_seen : Int
  city_id : Option Nat
  district_id : Option Nat
deriving DecidableEq, Repr

/-- `core.database.MonitoringTask` row, with the fields the dispatch
matcher reads. `allowed_districts` is the many-to-many district list. -/
structure MonitoringTask where
  id : Nat
  chat_id : PyStr
  name : PyStr
  url : PyStr
  last_updated : Int
  last_got_item : Option Int
  city_id : Option Nat
  allowed_districts : List District
deriving DecidableEq, Repr

/-- The relational store visible to one session: row lists plus the id
sequence (store-assigned ids are positive, so truthiness checks on ids
coincide with `Option` presence). -/
structure DB where
  cities : List City
  districts : List District
  items : List ItemRecord
  tasks : List MonitoringTask
  next_id : Nat
deriving DecidableEq, Repr

/-- `schemas.items.ItemRecordCreate`. -/
structure ItemRecordCreate where
  item_url : PyStr
  source_url : PyStr
  title : Option PyStr
  price : Option PyStr
  location : Option PyStr
  created_at : Option Int
  created_at_pretty : Option PyStr
  image_url : Option PyStr
  description : Option PyStr
  source : Option PyStr
deriving DecidableEq, Repr

/-- The two configured windows of `core.config.Settings` the dispatch
matcher reads. -/
structure Settings where
  DEFAULT_SENDING_FREQUENCY_MINUTES : Int
  DEFAULT_LAST_MINUTES_GETTING : Int
deriving DecidableEq, Repr

/-- `ItemService._get_or_create_city` in the single-writer session: look
up by normalized name; if absent, add and flush (the flush assigns the
next id and makes the row visible to later lookups in the same unit of
work). Returns the row and the updated session state. -/
def _get_or_create_city (db : DB) (city_name : PyStr) : City × DB :=
  let city_normalized := _normalize_name city_name
  match db.cities.find? (fun c => c.name_normalized == city_normalized) with
  | some city => (city, db)
  | none =>
    let city : City :=
      { id := db.next_id, name_raw := city_name, name_normalized := city_normalized }
    (city, { db with cities := db.cities ++ [city], next_id := db.next_id + 1 })

/-- `ItemService._get_or_create_district` in the single-writer session:
look up by `(city_id, name_normalized)`; if absent, add and flush. -/
def _get_or_create_district (db : DB) (city : City) (district_name : PyStr) :
    District × DB :=
  let district_normalized := _normalize_name district_name
  match db.districts.find? (fun d =>
      d.city_id == city.id && d.name_normalized == district_normalized) with
  | some district => (district, db)
  | none =>
    let district : District :=
      { id := db.next_id, city_id := city.id, name_raw := district_name,
        name_normalized := district_normalized }
    (district,
     { db with districts := db.districts ++ [district], next_id := db.next_id + 1 })

/-- The store error a flush can raise: a uniqueness-constraint
violation (`IntegrityError`). -/
inductive DbError where
  | uniqueViolation
deriving DecidableEq, Repr

/-- `ItemService._get_or_create_city` under a concurrent writer: `seen`
is the city table as the session's lookup observes it, `committedAtFlush`
the table as the store checks it when the insert is flushed (a row
committed by a concurrent ingestion between the two is in the second
list only). The source has no `try`/`except` around the add/flush, so a
constraint violation at flush is returned as the error it raises. -/
def _get_or_create_city_raced (seen committedAtFlush : List City)
    (next_id : Nat) (city_name : PyStr) : Except DbError City :=
  let city_normalized := _normalize_name city_name
  match seen.find? (fun c => c.name_normalized == city_normalized) with
  | some city => .ok city
  | none =>
    if committedAtFlush.any (fun c => c.name_normalized == city_normalized) then
      .error .uniqueViolation
    else
      .ok { id := next_id, name_raw := city_name, name_normalized := city_normalized }

/-- `ItemService._get_or_create_district` under a concurrent writer;
same reading as `_get_or_create_city_raced`, keyed on
`(city_id, name_normalized)`. -/
def _get_or_create_district_raced (seen committedAtFlush : List District)
    (next_id : Nat) (city : City) (district_name : PyStr) : Except DbError District :=
  let district_normalized := _normalize_name district_name
  match seen.find? (fun d =>
      d.city_id == city.id && d.name_normalized == district_normalized) with
  | some district => .ok district
  | none =>
    if committedAtFlush.any (fun d =>
        d.city_id == city.id && d.name_normalized == district_normalized) then
      .error .uniqueViolation
    else
      .ok { id := next_id, city_id := city.id, name_raw := district_name,
            name_normalized := district_normalized }

/-- `ItemService.create_item`: infer the source from the item URL when
unset, clean the location, parse it, resolve city then district, and
persist the new item with `first_seen = now`. Returns the updated store
and the created row. -/
def create_item (now : Int) (db : DB) (item_data : ItemRecordCreate) :
    DB × ItemRecord :=
  let source :=
    if (item_data.source = none ∨ item_data.source = some []) ∧ item_data.item_url ≠ []
    then
      if pyInStr "olx.pl".data (pyLower item_data.item_url) then some "OLX".data
      else if pyInStr "otodom.pl".data (pyLower item_data.item_url) then
        some "Otodom".data
      else item_data.source
    else item_data.source
  let clean_location := clean_location_of item_data.location
  let parsed := _parse_location clean_location
  let cityStep := _get_or_create_city db parsed.1
  let districtStep := _get_or_create_district cityStep.2 cityStep.1 parsed.2
  let db2 := districtStep.2
  let new_item : ItemRecord :=
    { id := db2.next_id
      item_url := item_data.item_url
      source_url := item_data.source_url
      title := item_data.title
      price := item_data.price
      location := clean_location
      created_at := item_data.created_at
      created_at_pretty := item_data.created_at_pretty
      image_url := item_data.image_url
      description := item_data.description
      source := source
      first_seen := now
      city_id := some cityStep.1.id
      district_id := some districtStep.1.id }
  ({ db2 with items := db2.items ++ [new_item], next_id := db2.next_id + 1 },
   new_item)

/-- Insert into a list kept in `first_seen`-descending order. -/
def insertByFirstSeenDesc (it : ItemRecord) : List ItemRecord → List ItemRecord
  | [] => [it]
  | x :: xs =>
    if x.first_seen ≤ it.first_seen then it :: x :: xs
    else x :: insertByFirstSeenDesc it xs

/-- `order_by(ItemRecord.first_seen.desc())`. -/
def sortByFirstSeenDesc : List ItemRecord → List ItemRecord
  | [] => []
  | x :: xs => insertByFirstSeenDesc x (sortByFirstSeenDesc xs)

/-- `ItemService.get_items_to_send_for_task`: time filter (since
`last_got_item`, or the larger default window on first run), exact
source-URL filter, then the optional city and district filters with
their sentinel-"unknown" OR-clauses, newest first. -/
def get_items_to_send_for_task (settings : Settings) (now : Int) (db : DB)
    (task : MonitoringTask) : List ItemRecord :=
  let time_filter : ItemRecord → Bool :=
    match task.last_got_item with
    | some last => fun it => decide (last < it.first_seen)
    | none =>
      let time_threshold :=
        if settings.DEFAULT_SENDING_FREQUENCY_MINUTES >
            settings.DEFAULT_LAST_MINUTES_GETTING then
          now - settings.DEFAULT_SENDING_FREQUENCY_MINUTES
        else
          now - settings.DEFAULT_LAST_MINUTES_GETTING
      fun it => decide (time_threshold < it.first_seen)
  let afterBase :=
    db.items.filter fun it => time_filter it && it.source_url == task.url
  let afterCity :=
    match task.city_id with
    | none => afterBase
    | some task_city_id =>
      let unknown_city :=
        db.cities.find? fun c => c.name_normalized == "unknown".data
      match unknown_city.map (·.id) with
      | some unknown_city_id =>
        afterBase.filter fun it =>
          it.city_id == some task_city_id || it.city_id == some unknown_city_id
      | none => afterBase.filter fun it => it.city_id == some task_city_id
  let afterDistrict :=
    if task.allowed_districts = [] then afterCity
    else
      let allowed_district_ids := task.allowed_districts.map (·.id)
      let unknown_district :=
        db.districts.find? fun d => d.name_normalized == "unknown".data
      match unknown_district.map (·.id) with
      | some unknown_district_id =>
        afterCity.filter fun it =>
          (it.district_id.any fun i => allowed_district_ids.contains i) ||
            it.district_id == some unknown_district_id
      | none =>
        afterCity.filter fun it =>
          it.district_id.any fun i => allowed_district_ids.contains i
  sortByFirstSeenDesc afterDistrict

/-- `ItemService.get_items_to_send_for_task_by_id`: look the task up by
id; a missing task yields the empty list. -/
def get_items_to_send_for_task_by_id (settings : Settings) (now : Int) (db : DB)
    (task_id : Nat) : List ItemRecord :=
  match db.tasks.find? (fun t => t.id == task_id) with
  | none => []
  | some task => get_items_to_send_for_task settings now db task

/-- Id of the sentinel city (`name_normalized = "unknown"`) the matcher
looks up, if one exists. -/
def unknown_city_id (db : DB) : Option Nat :=
  (db.cities.find? fun c => c.name_normalized == "unknown".data).map (·.id)

/-- Id of the sentinel district the matcher looks up, if one exists. -/
def unknown_district_id (db : DB) : Option Nat :=
  (db.districts.find? fun d => d.name_normalized == "unknown".data).map (·.id)

/-- The first-run time threshold of the matcher: `now` minus the larger
configured window, written as the source's comparison. -/
def first_run_threshold (settings : Settings) (now : Int) : Int :=
  if settings.DEFAULT_SENDING_FREQUENCY_MINUTES >
      settings.DEFAULT_LAST_MINUTES_GETTING then
    now - settings.DEFAULT_SENDING_FREQUENCY_MINUTES
  else
    now - settings.DEFAULT_LAST_MINUTES_GETTING

/-- The matcher's time clause on one item. -/
def passes_time (settings : Settings) (now : Int) (task : MonitoringTask)
    (it : ItemRecord) : Prop :=
  match task.last_got_item with
  | some last => last < it.first_seen
  | none => first_run_threshold settings now < it.first_seen

/-- The matcher's city clause on one item. -/
def passes_city (db : DB) (task : MonitoringTask) (it : ItemRecord) : Prop :=
  match task.city_id with
  | none => True
  | some task_city_id =>
    match unknown_city_id db with
    | some uid => it.city_id = some task_city_id ∨ it.city_id = some uid
    | none => it.city_id = some task_city_id

/-- The matcher's district clause on one item. -/
def passes_district (db : DB) (task : MonitoringTask) (it : ItemRecord) : Prop :=
  if task.allowed_districts = [] then True
  else
    match unknown_district_id db with
    | some uid =>
      (∃ i, it.district_id = some i ∧ i ∈ task.allowed_districts.map (·.id)) ∨
        it.district_id = some uid
    | none => ∃ i, it.district_id = some i ∧ i ∈ task.allowed_districts.map (·.id)

theorem option_any_eq_true {α : Type} (p : α → Bool) (o : Option α) :
    o.any p = true ↔ ∃ a, o = some a ∧ p a = true := by
  cases o <;> simp

theorem district_membership_bool (allowed : List Nat) (o : Option Nat) :
    (o.any fun i => allowed.contains i) = true ↔ ∃ i, o = some i ∧ i ∈ allowed := by
  cases o <;> simp

theorem mem_insertByFirstSeenDesc (a it : ItemRecord) (l : List ItemRecord) :
    a ∈ insertByFirstSeenDesc it l ↔ a = it ∨ a ∈ l := by
  induction l with
  | nil => simp [insertByFirstSeenDesc]
  | cons x xs ih =>
    simp only [insertByFirstSeenDesc]
    split
    · simp
    · simp [ih]
      tauto

theorem mem_sortByFirstSeenDesc (a : ItemRecord) (l : List ItemRecord) :
    a ∈ sortByFirstSeenDesc l ↔ a ∈ l := by
  induction l with
  | nil => simp [sortByFirstSeenDesc]
  | cons x xs ih =>
    simp [sortByFirstSeenDesc, mem_insertByFirstSeenDesc, ih]

/-- Master membership characterization of the dispatch matcher: an item
is returned exactly when it is stored and passes the time, source, city
and district clauses. -/
theorem mem_get_items_to_send_iff (settings : Settings) (now : Int) (db : DB)
    (task : MonitoringTask) (it : ItemRecord) :
    it ∈ get_items_to_send_for_task settings now db task ↔
      it ∈ db.items ∧ passes_time settings now task it ∧
        it.source_url = task.url ∧ passes_city db task it ∧
        passes_district db task it := by
  unfold get_items_to_send_for_task passes_time passes_city passes_district
  unfold first_run_threshold unknown_city_id unknown_district_id
  rw [mem_sortByFirstSeenDesc]
  cases task.last_got_item <;>
    cases task.city_id <;>
      rcases hfc : db.cities.find? fun c => c.name_normalized == "unknown".data <;>
        rcases hfd : db.districts.find? fun d => d.name_normalized == "unknown".data <;>
          by_cases had : task.allowed_districts = [] <;>
            simp [hfc, hfd, had, List.mem_filter, beq_iff_eq, decide_eq_true_iff,
              option_any_eq_true, and_assoc] <;>
            aesop

theorem head_false_of_dropWhile_eq_cons {p : Char → Bool} {l : List Char} {c : Char}
    {t : List Char} (h : List.dropWhile p l = c :: t) : p c = false := by
  induction l with
  | nil => simp [List.dropWhile] at h
  | cons a as ih =>
    rw [List.dropWhile] at h
    cases hpa : p a with
    | true =>
      rw [hpa] at h
      exact ih h
    | false =>
      rw [hpa] at h
      have h' : a :: as = c :: t := h
      cases h'
      exact hpa

theorem dropWhile_self_idem (p : Char → Bool) (l : List Char) :
    List.dropWhile p (List.dropWhile p l) = List.dropWhile p l := by
  cases h : List.dropWhile p l with
  | nil => simp
  | cons c t => simp [List.dropWhile, head_false_of_dropWhile_eq_cons h]

theorem pyStrip_head_false {s : PyStr} {c : Char} {t : PyStr}
    (h : pyStrip s = c :: t) : isPySpace c = false := by
  have hpre : pyStrip s <+: s.dropWhile isPySpace := by
    unfold pyStrip
    have hsuf : (s.dropWhile isPySpace).reverse.dropWhile isPySpace <:+
        (s.dropWhile isPySpace).reverse := List.dropWhile_suffix _
    have hiff := @List.reverse_prefix Char
      ((s.dropWhile isPySpace).reverse.dropWhile isPySpace)
      ((s.dropWhile isPySpace).reverse)
    rw [List.reverse_reverse] at hiff
    exact hiff.mpr hsuf
  obtain ⟨r, hr⟩ := hpre
  rw [h] at hr
  exact @head_false_of_dropWhile_eq_cons isPySpace s c (t ++ r) (by simpa using hr.symm)

theorem pyStrip_idem (s : PyStr) : pyStrip (pyStrip s) = pyStrip s := by
  have h1 : (pyStrip s).dropWhile isPySpace = pyStrip s := by
    cases h : pyStrip s with
    | nil => simp
    | cons c t => simp [List.dropWhile, pyStrip_head_false h]
  have h2 : pyStrip (pyStrip s) =
      (((pyStrip s).dropWhile isPySpace).reverse.dropWhile isPySpace).reverse := rfl
  rw [h2, h1]
  have h3 : (pyStrip s).reverse =
      (s.dropWhile isPySpace).reverse.dropWhile isPySpace := by
    unfold pyStrip
    rw [List.reverse_reverse]
  rw [h3, dropWhile_self_idem]
  rfl

theorem mem_of_mem_pyStrip {a : Char} {s : PyStr} (h : a ∈ pyStrip s) : a ∈ s := by
  unfold pyStrip at h
  rw [List.mem_reverse] at h
  have h2 := (List.dropWhile_sublist _).mem h
  rw [List.mem_reverse] at h2
  exact (List.dropWhile_sublist _).mem h2

theorem uniChar_ascii {c d : Char} (h : d ∈ uniChar c) : d.toNat < 128 := by
  unfold uniChar at h
  by_cases h0 : c.toNat < 128
  · rw [if_pos h0, List.mem_singleton] at h
    subst h
    exact h0
  · rw [if_neg h0] at h
    cases hf : uniTable.find? (fun q => q.1 == c) with
    | none =>
      rw [hf] at h
      exact absurd h (List.not_mem_nil d)
    | some q =>
      rw [hf, List.mem_singleton] at h
      subst h
      have hmem := List.mem_of_find?_eq_some hf
      have hall : ∀ q ∈ uniTable, q.2.toNat < 128 := by decide
      exact hall q hmem

theorem uniChar_of_ascii {c : Char} (h : c.toNat < 128) : uniChar c = [c] := by
  unfold uniChar
  rw [if_pos h]

theorem unidecode_ascii {s : PyStr} {d : Char} (h : d ∈ unidecode s) :
    d.toNat < 128 := by
  unfold unidecode at h
  rw [List.mem_flatMap] at h
  obtain ⟨c, _, hc⟩ := h
  exact uniChar_ascii hc

theorem unidecode_fix {s : PyStr} (h : ∀ d ∈ s, d.toNat < 128) :
    unidecode s = s := by
  induction s with
  | nil => rfl
  | cons c t ih =>
    show uniChar c ++ unidecode t = c :: t
    rw [uniChar_of_ascii (h c (by simp)), ih fun d hd => h d (by simp [hd])]
    rfl

theorem char_toNat_ofNat_lt {n : Nat} (h : n < 55296) : (Char.ofNat n).toNat = n := by
  have hv : n.isValidChar := Or.inl h
  simp [Char.ofNat, hv, Char.ofNatAux, Char.toNat, UInt32.toNat, BitVec.toNat_ofNatLt]

theorem pyLowerTable_none_of_ascii {c : Char} (h : c.toNat < 128) :
    pyLowerTable.find? (fun q => q.1 == c) = none := by
  rw [List.find?_eq_none]
  intro q hq
  have hall : ∀ q ∈ pyLowerTable, 128 ≤ q.1.toNat := by decide
  have hk := hall q hq
  simp only [beq_iff_eq]
  intro he
  rw [he] at hk
  omega

theorem pyLowerChar_ascii_props {c : Char} (h : c.toNat < 128) :
    (pyLowerChar c).toNat < 128 ∧
      ¬(65 ≤ (pyLowerChar c).toNat ∧ (pyLowerChar c).toNat ≤ 90) := by
  unfold pyLowerChar
  by_cases h0 : 65 ≤ c.toNat ∧ c.toNat ≤ 90
  · rw [if_pos h0]
    have := @char_toNat_ofNat_lt (c.toNat + 32) (by omega)
    omega
  · rw [if_neg h0, pyLowerTable_none_of_ascii h]
    exact ⟨h, h0⟩

theorem pyLowerChar_fix {c : Char} (h : c.toNat < 128)
    (hu : ¬(65 ≤ c.toNat ∧ c.toNat ≤ 90)) : pyLowerChar c = c := by
  unfold pyLowerChar
  rw [if_neg hu, pyLowerTable_none_of_ascii h]

/-- C8: the name normalization `_normalize_name` (transliterate to
ASCII, lowercase, trim) is idempotent: normalizing an already normalized
name changes nothing. -/
theorem normalize_name_idempotent (s : PyStr) :
    _normalize_name (_normalize_name s) = _normalize_name s := by
  have hchars : ∀ d ∈ _normalize_name s,
      d.toNat < 128 ∧ ¬(65 ≤ d.toNat ∧ d.toNat ≤ 90) := by
    intro d hd
    have hd2 : d ∈ pyLower (unidecode s) := mem_of_mem_pyStrip hd
    rw [pyLower, List.mem_map] at hd2
    obtain ⟨e, he, rfl⟩ := hd2
    exact pyLowerChar_ascii_props (unidecode_ascii he)
  show pyStrip (pyLower (unidecode (_normalize_name s))) = _normalize_name s
  rw [unidecode_fix fun d hd => (hchars d hd).1]
  have hlow : pyLower (_normalize_name s) = _normalize_name s := by
    rw [pyLower, List.map_congr_left fun d hd =>
      pyLowerChar_fix (hchars d hd).1 (hchars d hd).2]
    simp
  rw [hlow]
  show pyStrip (pyStrip (pyLower (unidecode s))) = _normalize_name s
  rw [pyStrip_idem]
  rfl

/-- C4: `_parse_location` is total and well-formed on every input:
`None`, empty and whitespace-only inputs give `("Unknown", "Unknown")`;
with at least two comma-separated trimmed segments the first two become
the city and district names (further segments ignored); with exactly one
segment it becomes the city name and the district name is `"Unknown"`. -/
theorem parse_location_total_spec :
    (_parse_location none = (unknownName, unknownName)) ∧
    (∀ s : PyStr, pyStrip s = [] →
      _parse_location (some s) = (unknownName, unknownName)) ∧
    (∀ (s c d : PyStr) (rest : List PyStr), pyStrip s ≠ [] →
      (splitComma s).map pyStrip = c :: d :: rest →
      _parse_location (some s) = (c, d)) ∧
    (∀ s c : PyStr, pyStrip s ≠ [] →
      (splitComma s).map pyStrip = [c] →
      _parse_location (some s) = (c, unknownName)) := by
  refine ⟨rfl, ?_, ?_, ?_⟩
  · intro s hs
    simp only [_parse_location]
    rw [if_pos (Or.inr hs)]
  · intro s c d rest hs hsplit
    simp only [_parse_location]
    rw [if_neg ?_, hsplit]
    rintro (rfl | h)
    · exact hs rfl
    · exact hs h
  · intro s c hs hsplit
    simp only [_parse_location]
    rw [if_neg ?_, hsplit]
    rintro (rfl | h)
    · exact hs rfl
    · exact hs h

/-- Closed instances of `parse_location_total_spec` at concrete inputs. -/
theorem parse_location_total_spec_witness :
    _parse_location (some "Warszawa, Ursus, X".data) =
      ("Warszawa".data, "Ursus".data) ∧
    _parse_location (some "  ".data) = (unknownName, unknownName) ∧
    _parse_location (some "Warszawa".data) = ("Warszawa".data, unknownName) := by
  refine ⟨?_, ?_, ?_⟩
  · exact parse_location_total_spec.2.2.1 "Warszawa, Ursus, X".data
      "Warszawa".data "Ursus".data ["X".data] (by decide) (by decide)
  · exact parse_location_total_spec.2.1 "  ".data (by decide)
  · exact parse_location_total_spec.2.2.2 "Warszawa".data "Warszawa".data
      (by decide) (by decide)

/-- Sample rows used to instantiate the dispatch-matcher theorems. -/
def sampleItem (iid : Nat) (fs : Int) (cid did : Option Nat) : ItemRecord :=
  { id := iid, item_url := "https://www.olx.pl/item1".data,
    source_url := "https://www.olx.pl/feed".data, title := none, price := none,
    location := none, created_at := none, created_at_pretty := none,
    image_url := none, description := none, source := none,
    first_seen := fs, city_id := cid, district_id := did }

def sampleTask (lgi : Option Int) (cid : Option Nat)
    (ads : List District) : MonitoringTask :=
  { id := 1, chat_id := "chat1".data, name := "task1".data,
    url := "https://www.olx.pl/feed".data, last_updated := 0,
    last_got_item := lgi, city_id := cid, allowed_districts := ads }

def sampleDB (cs : List City) (ds : List District) (its : List ItemRecord)
    (ts : List MonitoringTask) : DB :=
  { cities := cs, districts := ds, items := its, tasks := ts, next_id := 50 }

/-- C2: with `last_got_item = T`, an otherwise-eligible item is returned
iff `first_seen > T`, for every configuration of the default windows; and
every returned item's `source_url` equals the task's `url` exactly. -/
theorem last_got_item_window_spec (settings : Settings) (now : Int) (db : DB)
    (task : MonitoringTask) (it : ItemRecord) (T : Int)
    (hT : task.last_got_item = some T) :
    ((it ∈ db.items ∧ it.source_url = task.url ∧ passes_city db task it ∧
        passes_district db task it) →
      (it ∈ get_items_to_send_for_task settings now db task ↔
        T < it.first_seen)) ∧
    (∀ jt ∈ get_items_to_send_for_task settings now db task,
      jt.source_url = task.url) := by
  constructor
  · intro helig
    rw [mem_get_items_to_send_iff]
    unfold passes_time
    rw [hT]
    tauto
  · intro jt hjt
    exact ((mem_get_items_to_send_iff settings now db task jt).mp hjt).2.2.1

/-- Closed instance of `last_got_item_window_spec`: with `T = 100`, the
item first seen at 150 is returned (and the one at 80 would not be). -/
theorem last_got_item_window_spec_witness :
    sampleItem 10 150 none none ∈
      get_items_to_send_for_task ⟨1, 60⟩ 200
        (sampleDB [] [] [sampleItem 10 150 none none] [sampleTask (some 100) none []])
        (sampleTask (some 100) none []) ∧
    ¬ sampleItem 11 80 none none ∈
      get_items_to_send_for_task ⟨1, 60⟩ 200
        (sampleDB [] [] [sampleItem 11 80 none none] [sampleTask (some 100) none []])
        (sampleTask (some 100) none []) := by
  constructor
  · exact ((last_got_item_window_spec ⟨1, 60⟩ 200
      (sampleDB [] [] [sampleItem 10 150 none none] [sampleTask (some 100) none []])
      (sampleTask (some 100) none []) (sampleItem 10 150 none none) 100 rfl).1
      ⟨by simp [sampleDB], rfl, trivial, trivial⟩).mpr (by decide)
  · intro hmem
    exact absurd (((last_got_item_window_spec ⟨1, 60⟩ 200
      (sampleDB [] [] [sampleItem 11 80 none none] [sampleTask (some 100) none []])
      (sampleTask (some 100) none []) (sampleItem 11 80 none none) 100 rfl).1
      ⟨by simp [sampleDB], rfl, trivial, trivial⟩).mp hmem) (by decide)

/-- C3: with `last_got_item` unset and positive configured windows, the
matcher's threshold is `now` minus the larger window, and membership is
characterized by `first_seen > now - max(frequency, window)`. -/
theorem first_run_threshold_spec (settings : Settings) (now : Int) (db : DB)
    (task : MonitoringTask) (it : ItemRecord)
    (hT : task.last_got_item = none)
    (hf : 0 < settings.DEFAULT_SENDING_FREQUENCY_MINUTES)
    (hw : 0 < settings.DEFAULT_LAST_MINUTES_GETTING) :
    first_run_threshold settings now =
      now - max settings.DEFAULT_SENDING_FREQUENCY_MINUTES
        settings.DEFAULT_LAST_MINUTES_GETTING ∧
    (it ∈ get_items_to_send_for_task settings now db task ↔
      it ∈ db.items ∧
        now - max settings.DEFAULT_SENDING_FREQUENCY_MINUTES
          settings.DEFAULT_LAST_MINUTES_GETTING < it.first_seen ∧
        it.source_url = task.url ∧ passes_city db task it ∧
        passes_district db task it) := by
  have hmax : first_run_threshold settings now =
      now - max settings.DEFAULT_SENDING_FREQUENCY_MINUTES
        settings.DEFAULT_LAST_MINUTES_GETTING := by
    unfold first_run_threshold
    rcases le_or_lt settings.DEFAULT_SENDING_FREQUENCY_MINUTES
        settings.DEFAULT_LAST_MINUTES_GETTING with hle | hlt
    · rw [if_neg (by omega), max_eq_right hle]
    · rw [if_pos hlt, max_eq_left (le_of_lt hlt)]
  refine ⟨hmax, ?_⟩
  rw [mem_get_items_to_send_iff]
  unfold passes_time
  rw [hT, hmax]

/-- Closed instance of `first_run_threshold_spec` at frequency 60,
window 30, `now` = 2025-01-01T12:00 (720 minutes into 2025-01-01): the
effective threshold is 2025-01-01T11:00 (660). -/
theorem first_run_threshold_spec_witness :
    first_run_threshold ⟨60, 30⟩ 720 = 660 := by
  have h := (first_run_threshold_spec ⟨60, 30⟩ 720
    (sampleDB [] [] [] [sampleTask none none []]) (sampleTask none none [])
    (sampleItem 10 700 none none) rfl (by decide) (by decide)).1
  exact h.trans (by decide)

/-- C9: dispatch by an id matching no stored task returns the empty
sequence (and raises no error). -/
theorem missing_task_yields_empty (settings : Settings) (now : Int) (db : DB)
    (task_id : Nat) (h : ∀ t ∈ db.tasks, t.id ≠ task_id) :
    get_items_to_send_for_task_by_id settings now db task_id = [] := by
  unfold get_items_to_send_for_task_by_id
  have hf : db.tasks.find? (fun t => t.id == task_id) = none := by
    rw [List.find?_eq_none]
    intro t ht
    simpa using h t ht
  rw [hf]

/-- Closed instance of `missing_task_yields_empty`: id 99 matches no
stored task. -/
theorem missing_task_yields_empty_witness :
    get_items_to_send_for_task_by_id ⟨1, 60⟩ 200
      (sampleDB [] [] [sampleItem 10 150 none none] [sampleTask (some 100) none []])
      99 = [] := by
  exact missing_task_yields_empty ⟨1, 60⟩ 200
    (sampleDB [] [] [sampleItem 10 150 none none] [sampleTask (some 100) none []])
    99 (by decide)

/-- C1: with `task.city_id` set, the returned set contains exactly the
otherwise-eligible items whose `city_id` is the task's or the sentinel
"unknown" city's; with `allowed_districts` non-empty, exactly those whose
`district_id` is allowed or the sentinel "unknown" district's; and when
the sentinel row does not exist the clause degenerates to the plain
equality/membership test. -/
theorem geography_filter_spec (settings : Settings) (now : Int) (db : DB)
    (task : MonitoringTask) (it : ItemRecord) :
    (∀ cid uid, task.city_id = some cid → unknown_city_id db = some uid →
      (it ∈ get_items_to_send_for_task settings now db task ↔
        (it ∈ db.items ∧ passes_time settings now task it ∧
          it.source_url = task.url ∧ passes_district db task it) ∧
          (it.city_id = some cid ∨ it.city_id = some uid))) ∧
    (∀ cid, task.city_id = some cid → unknown_city_id db = none →
      (it ∈ get_items_to_send_for_task settings now db task ↔
        (it ∈ db.items ∧ passes_time settings now task it ∧
          it.source_url = task.url ∧ passes_district db task it) ∧
          it.city_id = some cid)) ∧
    (∀ uid, task.allowed_districts ≠ [] → unknown_district_id db = some uid →
      (it ∈ get_items_to_send_for_task settings now db task ↔
        (it ∈ db.items ∧ passes_time settings now task it ∧
          it.source_url = task.url ∧ passes_city db task it) ∧
          ((∃ i, it.district_id = some i ∧
              i ∈ task.allowed_districts.map (·.id)) ∨
            it.district_id = some uid))) ∧
    (task.allowed_districts ≠ [] → unknown_district_id db = none →
      (it ∈ get_items_to_send_for_task settings now db task ↔
        (it ∈ db.items ∧ passes_time settings now task it ∧
          it.source_url = task.url ∧ passes_city db task it) ∧
          ∃ i, it.district_id = some i ∧
            i ∈ task.allowed_districts.map (·.id))) := by
  refine ⟨?_, ?_, ?_, ?_⟩
  · intro cid uid hcid huid
    rw [mem_get_items_to_send_iff]
    unfold passes_city
    rw [hcid, huid]
    tauto
  · intro cid hcid huid
    rw [mem_get_items_to_send_iff]
    unfold passes_city
    rw [hcid, huid]
    tauto
  · intro uid had huid
    rw [mem_get_items_to_send_iff]
    unfold passes_district
    rw [if_neg had, huid]
    aesop
  · intro had huid
    rw [mem_get_items_to_send_iff]
    unfold passes_district
    rw [if_neg had, huid]
    aesop

/-- Sample taxonomy rows for the geography-filter instances. -/
def warszawaCity : City := ⟨1, "Warszawa".data, "warszawa".data⟩

def unknownCityRow : City := ⟨2, "Unknown".data, "unknown".data⟩

def mokotowDistrict : District := ⟨3, 1, "Mokotów".data, "mokotow".data⟩

def unknownDistrictRow : District := ⟨4, 1, "Unknown".data, "unknown".data⟩

/-- Closed instance of `geography_filter_spec`: a task filtering on city
id 1 receives the item resolved to the sentinel "unknown" city (id 2)
but not the item of city 9. -/
theorem geography_filter_spec_witness :
    sampleItem 10 150 (some 2) none ∈
      get_items_to_send_for_task ⟨1, 60⟩ 200
        (sampleDB [warszawaCity, unknownCityRow] []
          [sampleItem 10 150 (some 2) none] [sampleTask (some 100) (some 1) []])
        (sampleTask (some 100) (some 1) []) ∧
    ¬ sampleItem 11 150 (some 9) none ∈
      get_items_to_send_for_task ⟨1, 60⟩ 200
        (sampleDB [warszawaCity, unknownCityRow] []
          [sampleItem 11 150 (some 9) none] [sampleTask (some 100) (some 1) []])
        (sampleTask (some 100) (some 1) []) := by
  constructor
  · exact ((geography_filter_spec ⟨1, 60⟩ 200
      (sampleDB [warszawaCity, unknownCityRow] []
        [sampleItem 10 150 (some 2) none] [sampleTask (some 100) (some 1) []])
      (sampleTask (some 100) (some 1) []) (sampleItem 10 150 (some 2) none)).1
      1 2 rfl (by decide)).mpr
      ⟨⟨by simp [sampleDB], by show (100:Int) < 150; decide, rfl, trivial⟩, Or.inr rfl⟩
  · intro hmem
    have h := ((geography_filter_spec ⟨1, 60⟩ 200
      (sampleDB [warszawaCity, unknownCityRow] []
        [sampleItem 11 150 (some 9) none] [sampleTask (some 100) (some 1) []])
      (sampleTask (some 100) (some 1) []) (sampleItem 11 150 (some 9) none)).1
      1 2 rfl (by decide)).mp hmem
    rcases h.2 with h9 | h9 <;> exact absurd h9 (by decide)

/-- C7: against an initially empty taxonomy, resolving a city and a
district twice with equivalent raw names (equal normalized forms) finds
the rows flushed by the first pass and inserts nothing: exactly one City
row and one District row exist afterwards. -/
theorem get_or_create_idempotent (db0 : DB) (cn1 cn2 dn1 dn2 : PyStr)
    (hc0 : db0.cities = []) (hd0 : db0.districts = [])
    (hcn : _normalize_name cn1 = _normalize_name cn2)
    (hdn : _normalize_name dn1 = _normalize_name dn2) :
    (let s1 := _get_or_create_city db0 cn1
     let s2 := _get_or_create_district s1.2 s1.1 dn1
     let s3 := _get_or_create_city s2.2 cn2
     let s4 := _get_or_create_district s3.2 s3.1 dn2
     s3.1 = s1.1 ∧ s4.1 = s2.1 ∧ s4.2 = s2.2 ∧
       s4.2.cities.length = 1 ∧ s4.2.districts.length = 1) := by
  have h1 : _get_or_create_city db0 cn1 =
      ({ id := db0.next_id, name_raw := cn1,
         name_normalized := _normalize_name cn1 },
       { db0 with
          cities := [{ id := db0.next_id, name_raw := cn1,
                       name_normalized := _normalize_name cn1 }],
          next_id := db0.next_id + 1 }) := by
    unfold _get_or_create_city
    rw [hc0]
    rfl
  set c1 : City :=
    { id := db0.next_id, name_raw := cn1,
      name_normalized := _normalize_name cn1 } with hc1
  set db1 : DB :=
    { db0 with cities := [c1], next_id := db0.next_id + 1 } with hdb1
  have h2 : _get_or_create_district db1 c1 dn1 =
      ({ id := db1.next_id, city_id := c1.id, name_raw := dn1,
         name_normalized := _normalize_name dn1 },
       { db1 with
          districts := [{ id := db1.next_id, city_id := c1.id, name_raw := dn1,
                          name_normalized := _normalize_name dn1 }],
          next_id := db1.next_id + 1 }) := by
    unfold _get_or_create_district
    have : db1.districts = [] := hd0
    rw [this]
    rfl
  set d1 : District :=
    { id := db1.next_id, city_id := c1.id, name_raw := dn1,
      name_normalized := _normalize_name dn1 } with hdd1
  set db2 : DB :=
    { db1 with districts := [d1], next_id := db1.next_id + 1 } with hdb2
  have h3 : _get_or_create_city db2 cn2 = (c1, db2) := by
    unfold _get_or_create_city
    have hfind : db2.cities.find?
        (fun c => c.name_normalized == _normalize_name cn2) = some c1 := by
      show List.find? _ [c1] = some c1
      rw [List.find?_cons_of_pos]
      rw [← hcn]
      exact beq_self_eq_true _
    simp only [hfind]
  have h4 : _get_or_create_district db2 c1 dn2 = (d1, db2) := by
    unfold _get_or_create_district
    have hfind : db2.districts.find? (fun d =>
        d.city_id == c1.id && d.name_normalized == _normalize_name dn2) =
        some d1 := by
      show List.find? _ [d1] = some d1
      rw [List.find?_cons_of_pos]
      rw [← hdn]
      show (c1.id == c1.id && d1.name_normalized == d1.name_normalized) = true
      rw [beq_self_eq_true, beq_self_eq_true]
      rfl
    simp only [hfind]
  simp [h1, h2, h3, h4]

/-- Closed instance of `get_or_create_idempotent`: resolving
("Warszawa", "Mokotów") and then ("warszawa ", "MOKOTOW") against an
empty taxonomy leaves exactly one city row and one district row. -/
theorem get_or_create_idempotent_witness :
    (let db0 : DB := ⟨[], [], [], [], 1⟩
     let s1 := _get_or_create_city db0 "Warszawa".data
     let s2 := _get_or_create_district s1.2 s1.1 "Mokotów".data
     let s3 := _get_or_create_city s2.2 "warszawa ".data
     let s4 := _get_or_create_district s3.2 s3.1 "MOKOTOW".data
     s3.1 = s1.1 ∧ s4.1 = s2.1 ∧ s4.2 = s2.2 ∧
       s4.2.cities.length = 1 ∧ s4.2.districts.length = 1) := by
  exact get_or_create_idempotent ⟨[], [], [], [], 1⟩ "Warszawa".data
    "warszawa ".data "Mokotów".data "MOKOTOW".data rfl rfl
    (by decide) (by decide)

theorem get_or_create_district_result (db : DB) (city : City) (dn : PyStr) :
    (_get_or_create_district db city dn).1.name_normalized = _normalize_name dn ∧
    (_get_or_create_district db city dn).1 ∈
      (_get_or_create_district db city dn).2.districts := by
  unfold _get_or_create_district
  cases hf : db.districts.find? (fun d =>
      d.city_id == city.id && d.name_normalized == _normalize_name dn) with
  | none =>
    simp only [hf]
    exact ⟨by simp, by simp⟩
  | some d =>
    have hp := List.find?_some hf
    rw [Bool.and_eq_true, beq_iff_eq, beq_iff_eq] at hp
    have hmem := List.mem_of_find?_eq_some hf
    simp only [hf]
    exact ⟨hp.2, hmem⟩

theorem create_item_fields (now : Int) (db : DB) (idata : ItemRecordCreate) :
    (create_item now db idata).2.district_id =
      some (_get_or_create_district
        (_get_or_create_city db
          (_parse_location (clean_location_of idata.location)).1).2
        (_get_or_create_city db
          (_parse_location (clean_location_of idata.location)).1).1
        (_parse_location (clean_location_of idata.location)).2).1.id ∧
    (create_item now db idata).1.districts =
      (_get_or_create_district
        (_get_or_create_city db
          (_parse_location (clean_location_of idata.location)).1).2
        (_get_or_create_city db
          (_parse_location (clean_location_of idata.location)).1).1
        (_parse_location (clean_location_of idata.location)).2).2.districts ∧
    (create_item now db idata).2.location = clean_location_of idata.location :=
  ⟨rfl, rfl, rfl⟩

/-- C10: a cleaned location whose second comma segment strips to the
empty string parses to district name `""`, not the `"Unknown"` sentinel;
`create_item` therefore assigns the item a district keyed on
`name_normalized = ""`, which is a different row — and, when district
ids are distinct, a different id — than the sentinel `"unknown"`
district the dispatch matcher's filter looks up. -/
theorem empty_second_segment_district (now : Int) (db : DB)
    (idata : ItemRecordCreate) (s c1 : PyStr) (rest : List PyStr)
    (hclean : clean_location_of idata.location = some s)
    (hs : pyStrip s ≠ [])
    (hsplit : (splitComma s).map pyStrip = c1 :: [] :: rest) :
    (_parse_location (some s)).2 = [] ∧
    _normalize_name [] = [] ∧
    ∃ dist ∈ (create_item now db idata).1.districts,
      (create_item now db idata).2.district_id = some dist.id ∧
      dist.name_normalized = [] ∧
      dist.name_normalized ≠ "unknown".data ∧
      (((create_item now db idata).1.districts.map (·.id)).Nodup →
        ∀ uid, unknown_district_id (create_item now db idata).1 = some uid →
          dist.id ≠ uid) := by
  have hparse : _parse_location (some s) = (c1, []) := by
    simp only [_parse_location]
    rw [if_neg ?_, hsplit]
    rintro (rfl | h)
    · exact hs rfl
    · exact hs h
  have hfields := create_item_fields now db idata
  rw [hclean, hparse] at hfields
  dsimp only at hfields
  have hres := get_or_create_district_result
    (_get_or_create_city db c1).2 (_get_or_create_city db c1).1 []
  refine ⟨by rw [hparse], rfl, ?_⟩
  refine ⟨(_get_or_create_district
    (_get_or_create_city db c1).2 (_get_or_create_city db c1).1 []).1,
    ?_, ?_, ?_, ?_, ?_⟩
  · rw [hfields.2.1]
    exact hres.2
  · exact hfields.1
  · exact hres.1
  · rw [hres.1]
    decide
  · intro hnodup uid huid
    unfold unknown_district_id at huid
    cases hfu : (create_item now db idata).1.districts.find?
        (fun d => d.name_normalized == "unknown".data) with
    | none => rw [hfu] at huid; exact absurd huid (by simp)
    | some ud =>
      rw [hfu] at huid
      have hudn : ud.name_normalized = "unknown".data := by
        have := List.find?_some hfu
        rwa [beq_iff_eq] at this
      have hudmem := List.mem_of_find?_eq_some hfu
      have huidq : uid = ud.id := by simpa using huid.symm
      intro hid
      have hdistmem : (_get_or_create_district
          (_get_or_create_city db c1).2 (_get_or_create_city db c1).1 []).1 ∈
          (create_item now db idata).1.districts := by
        rw [hfields.2.1]
        exact hres.2
      have heq := List.inj_on_of_nodup_map hnodup hdistmem hudmem
        (by rw [← huidq, hid])
      rw [heq] at hres
      rw [hudn] at hres
      exact absurd hres.1 (by decide)

/-- Closed instance of `empty_second_segment_district` at the raw
location `"Warszawa,"`: the created item's district is keyed on the
empty normalized name, not on the `"unknown"` sentinel. -/
theorem empty_second_segment_district_witness :
    (_parse_location (some "Warszawa,".data)).2 = [] := by
  have h := empty_second_segment_district 0 ⟨[], [], [], [], 1⟩
    { item_url := "u".data, source_url := "s".data, title := none, price := none,
      location := some "Warszawa,".data, created_at := none,
      created_at_pretty := none, image_url := none, description := none,
      source := none }
    "Warszawa,".data "Warszawa".data [] (by decide) (by decide) (by decide)
  exact h.1

/-- C5 counterexample: when the lookup misses but a concurrent ingestion
has already committed the same normalized city name, the get-or-create
resolver returns the uniqueness violation raised at flush — it does not
retry the lookup and return the winner's row. -/
theorem race_conflict_not_retried :
    _get_or_create_city_raced [] [⟨1, "Warszawa".data, "warszawa".data⟩] 2
      "Warszawa".data = .error .uniqueViolation ∧
    _get_or_create_city_raced [] [⟨1, "Warszawa".data, "warszawa".data⟩] 2
      "Warszawa".data ≠ .ok ⟨1, "Warszawa".data, "warszawa".data⟩ := by
  have hlhs : _get_or_create_city_raced []
      [⟨1, "Warszawa".data, "warszawa".data⟩] 2 "Warszawa".data =
      Except.error DbError.uniqueViolation := rfl
  refine ⟨hlhs, ?_⟩
  rw [hlhs]
  intro h
  exact Except.noConfusion h

/-- C5 amended: the get-or-create helpers have no handler around the
add/flush, so a store uniqueness-constraint violation raised when the
insert conflicts with a concurrently committed row propagates to the
caller; no retry lookup is performed. -/
theorem race_conflict_propagates (seenC atFlushC : List City)
    (seenD atFlushD : List District) (nid : Nat) (city : City) (cn dn : PyStr)
    (hm1 : seenC.find? (fun c => c.name_normalized == _normalize_name cn) = none)
    (hc1 : atFlushC.any (fun c => c.name_normalized == _normalize_name cn) = true)
    (hm2 : seenD.find? (fun d =>
      d.city_id == city.id && d.name_normalized == _normalize_name dn) = none)
    (hc2 : atFlushD.any (fun d =>
      d.city_id == city.id && d.name_normalized == _normalize_name dn) = true) :
    _get_or_create_city_raced seenC atFlushC nid cn =
      .error .uniqueViolation ∧
    _get_or_create_district_raced seenD atFlushD nid city dn =
      .error .uniqueViolation := by
  constructor
  · unfold _get_or_create_city_raced
    simp only [hm1, hc1, if_true]
  · unfold _get_or_create_district_raced
    simp only [hm2, hc2, if_true]

/-- Closed instance of `race_conflict_propagates`. -/
theorem race_conflict_propagates_witness :
    _get_or_create_city_raced [] [⟨1, "Gdansk".data, "gdansk".data⟩] 2
      "Gdansk".data = .error .uniqueViolation ∧
    _get_or_create_district_raced [] [⟨5, 1, "Wola".data, "wola".data⟩] 6
      ⟨1, "Gdansk".data, "gdansk".data⟩ "Wola".data =
      .error .uniqueViolation := by
  exact race_conflict_propagates [] [⟨1, "Gdansk".data, "gdansk".data⟩]
    [] [⟨5, 1, "Wola".data, "wola".data⟩] 2 ⟨1, "Gdansk".data, "gdansk".data⟩
    "Gdansk".data "Wola".data (by decide) (by decide) (by decide) (by decide)

/-- An `ItemRecordCreate` carrying only a location, for concrete runs of
`create_item`. -/
def sampleCreate (loc : Option PyStr) : ItemRecordCreate :=
  { item_url := "https://www.olx.pl/item1".data,
    source_url := "https://www.olx.pl/feed".data, title := none, price := none,
    location := loc, created_at := none, created_at_pretty := none,
    image_url := none, description := none, source := none }

/-- C6 counterexample: `" - ODŚWIEŻONO"` is a case variant of the
hyphen-prefixed noise suffix (its Python-lowercase form is the
`" - odświeżono"` variant), yet `create_item` stores the location with
that suffix intact, while the lower-case variant is stripped — the
cleaning is by two exact literals, not case-insensitive. -/
theorem uppercase_suffix_not_stripped :
    pyLower " - ODŚWIEŻONO".data = " - odświeżono".data ∧
    (create_item 0 ⟨[], [], [], [], 1⟩
      (sampleCreate (some "Warszawa - ODŚWIEŻONO".data))).2.location =
      some "Warszawa - ODŚWIEŻONO".data ∧
    (create_item 0 ⟨[], [], [], [], 1⟩
      (sampleCreate (some "Warszawa - odświeżono".data))).2.location =
      some "Warszawa".data := by
  refine ⟨by decide, ?_, ?_⟩
  · rw [(create_item_fields 0 ⟨[], [], [], [], 1⟩
      (sampleCreate (some "Warszawa - ODŚWIEŻONO".data))).2.2]
    decide
  · rw [(create_item_fields 0 ⟨[], [], [], [], 1⟩
      (sampleCreate (some "Warszawa - odświeżono".data))).2.2]
    decide

/-- C6 amended: `create_item` strips exactly the two literal
hyphen-prefixed suffix variants `" - Odświeżono"` and `" - odświeżono"`
(and trims whitespace) before parsing and stores the cleaned location;
in particular the title-case example is stored cleaned. -/
theorem create_item_strips_known_suffixes (now : Int) (db : DB)
    (d1 d2 : ItemRecordCreate)
    (h1 : d1.location = some "Warszawa, Mokotów - Odświeżono".data)
    (h2 : d2.location = some "Warszawa, Mokotów - odświeżono".data) :
    (create_item now db d1).2.location = some "Warszawa, Mokotów".data ∧
    (create_item now db d2).2.location = some "Warszawa, Mokotów".data := by
  constructor
  · rw [(create_item_fields now db d1).2.2, h1]
    decide
  · rw [(create_item_fields now db d2).2.2, h2]
    decide

/-- Closed instance of `create_item_strips_known_suffixes`. -/
theorem create_item_strips_known_suffixes_witness :
    (create_item 0 ⟨[], [], [], [], 1⟩
      (sampleCreate (some "Warszawa, Mokotów - Odświeżono".data))).2.location =
      some "Warszawa, Mokotów".data := by
  exact (create_item_strips_known_suffixes 0 ⟨[], [], [], [], 1⟩
    (sampleCreate (some "Warszawa, Mokotów - Odświeżono".data))
    (sampleCreate (some "Warszawa, Mokotów - odświeżono".data)) rfl rfl).1

end TopnDb
